import Mathlib

/-!
Verification of the model resource lifecycle manager of the
image-generation-service repository.

The Python module `src/core/models_loader.py` keeps three cached "slots"
as module-level globals: the text-to-image model (`_model` / `_model_id`),
the image-editing model (`_image_editing_model` / `_image_editing_model_id`)
and the upscaler model (`_upscaler_model` / `_upscaler_model_id`).  Each
`get_or_load_*` function either returns a cached instance (cache hit),
switches model (clearing the old instance first), or loads a fresh pipeline
via `from_pretrained`, places it on a device (possibly with CPU offloading)
and, depending on the retention setting, caches it or discards the cache.

The embedding below is a direct state-passing translation: the globals
become fields of `LoaderState`, the ambient host/environment facts (device
availability, environment variables, the settings file, failure behaviour of
`from_pretrained`) become an `Env` record, and every loader function takes
and returns the state explicitly.  Pipeline construction is instrumented
with a counter (`constructCount`) so that "no construction was performed"
and "construction count equals 2" are stateable; each constructed pipeline
receives a fresh identity tag `pid` (Python object identity).
-/

/-- A value stored in the JSON settings file (`application_settings.json`).
Only booleans and strings are relevant to the two settings the loader reads. -/
inductive SettingVal
  | vBool (b : Bool)
  | vStr (s : String)
deriving DecidableEq, Repr

/-- The settings store: `get_setting(key)` returns the stored value or `None`. -/
abbrev Settings := String → Option SettingVal

/-- The ambient environment of one run: device availability as reported by
torch, the process environment variables, the settings store, and the
behaviour of `from_pretrained` per model id (`none` = construction succeeds,
`some cause` = construction raises with that cause). -/
structure Env where
  cuda_available : Bool
  xpu_available : Bool
  osEnviron : String → Option String
  settings : Settings
  constructFails : String → Option String

/-- Translation of `get_device`: prefer CUDA, then XPU, else CPU. -/
def get_device (e : Env) : String :=
  if e.cuda_available then "cuda"
  else if e.xpu_available then "xpu"
  else "cpu"

/-- Python truthiness of an `Optional[str]`: `None` and `""` are falsy. -/
def strTruthy : Option String → Bool
  | none => false
  | some s => s ≠ ""

/-- The fixed ordered list of environment variables probed by
`resolve_hf_token`. -/
def hfEnvVars : List String :=
  ["HUGGINGFACE_HUB_TOKEN", "HF_HUB_TOKEN", "HF_TOKEN", "HUGGINGFACE_TOKEN"]

/-- The loop body of `resolve_hf_token`: walk the variable names in order and
return the first one whose value is set and non-empty (`if val:`). -/
def probe_env_token (e : Env) : List String → Option String
  | [] => none
  | v :: rest =>
    match e.osEnviron v with
    | some val => if val ≠ "" then some val else probe_env_token e rest
    | none => probe_env_token e rest

/-- Translation of `resolve_hf_token`: return the explicit token when truthy
(`if hf_token:`), otherwise probe the fixed list of environment variables. -/
def resolve_hf_token (e : Env) (hf_token : Option String) : Option String :=
  if strTruthy hf_token then hf_token else probe_env_token e hfEnvVars

/-- Modelled from the spec (section 4.2) for the refinement statement of the
token-resolution claim: the first non-empty value among the ordered sources. -/
def firstNonEmpty (e : Env) (vars : List String) : Option String :=
  vars.findSome? (fun v => (e.osEnviron v).bind (fun s => if s = "" then none else some s))

/-- The fields of a `BitsAndBytesConfig` that `get_bnb_4bit_config` sets.
The compute dtype is recorded as the torch dtype name. -/
structure BitsAndBytesConfig where
  load_in_4bit : Bool
  bnb_4bit_quant_type : String
  bnb_4bit_use_double_quant : Bool
  bnb_4bit_compute_type : String
deriving DecidableEq, Repr

/-- Translation of `get_bnb_4bit_config`: the branch condition is
`torch.cuda.is_available()` (only CUDA, not any accelerator). -/
def get_bnb_4bit_config (e : Env) : BitsAndBytesConfig :=
  if e.cuda_available then
    { load_in_4bit := true
      bnb_4bit_quant_type := "nf4"
      bnb_4bit_use_double_quant := true
      bnb_4bit_compute_type := "float16" }
  else
    { load_in_4bit := true
      bnb_4bit_quant_type := "nf4"
      bnb_4bit_use_double_quant := false
      bnb_4bit_compute_type := "float32" }

/-- The error raised by a failed load: `RuntimeError(f"Could not load ...
'{model_id}'.") from e` carries the identifier in its message and the
underlying exception as its cause. -/
inductive LoadError
  | constructionFailed (identifier : String) (cause : String)
deriving DecidableEq, Repr

/-- An instantiated pipeline object.  `pid` is the object identity (fresh per
construction); `offloadConfigured` records whether
`enable_model_cpu_offload()` was called on it; `placement` records the device
string of the final `.to(...)` call. -/
structure Pipeline where
  pid : Nat
  modelId : String
  offloadConfigured : Bool
  placement : String
deriving DecidableEq, Repr

/-- The module-level globals of `models_loader.py`, plus the construction
counter instrumenting calls to the pipeline `from_pretrained`. -/
structure LoaderState where
  _model : Option Pipeline
  _model_id : Option String
  _image_editing_model : Option Pipeline
  _image_editing_model_id : Option String
  _upscaler_model : Option Pipeline
  _upscaler_model_id : Option String
  constructCount : Nat
deriving DecidableEq, Repr

/-- The state at module import: all six globals are `None`. -/
def initState : LoaderState :=
  { _model := none, _model_id := none
    _image_editing_model := none, _image_editing_model_id := none
    _upscaler_model := none, _upscaler_model_id := none
    constructCount := 0 }

/-- Translation of `is_use_cpu_offload_enabled`:
`get_setting("use_cpu_offloading") == True`. -/
def is_use_cpu_offload_enabled (s : Settings) : Bool :=
  match s "use_cpu_offloading" with
  | some (SettingVal.vBool b) => b
  | _ => false

/-- Translation of `is_model_retentation_reload`: note the key used by the
code is the misspelled `model_load_retentation_strategy` (the same spelling
the admin settings endpoint writes). -/
def is_model_retentation_reload (s : Settings) : Bool :=
  match s "model_load_retentation_strategy" with
  | some (SettingVal.vStr v) => v = "reload"
  | _ => false

/-- The pipeline built by a successful `from_pretrained` in `get_or_load_model`
or `get_or_load_image_editing_model`, after the offload/placement step: when
`is_use_cpu_offload_enabled()`, `enable_model_cpu_offload()` is called and the
pipeline is moved to `"cpu"`; otherwise it is moved to the selected device.
Its identity tag is the current construction counter (freshness). -/
def freshPipeline (e : Env) (st : LoaderState) (model_id : String) : Pipeline :=
  let offload := is_use_cpu_offload_enabled e.settings
  { pid := st.constructCount
    modelId := model_id
    offloadConfigured := offload
    placement := if offload then "cpu" else get_device e }

/-- The pipeline built by a successful `from_pretrained` in
`get_or_load_upscaler_model`: the offload setting is never consulted and the
pipeline is unconditionally moved to the selected device. -/
def freshUpscalerPipeline (e : Env) (st : LoaderState) (model_id : String) :
    Pipeline :=
  { pid := st.constructCount
    modelId := model_id
    offloadConfigured := false
    placement := get_device e }

/-- The `try` block of `get_or_load_model` on a cache miss (`_model` already
cleared by the caller when switching): resolve device and token, construct
the pipeline (which may raise), apply offloading or device placement, set
`_model_id`, then cache or discard according to the retention setting.  The
`except` branch clears both globals and re-raises. -/
def load_model_miss (e : Env) (st : LoaderState) (model_id : String)
    (hf_token : Option String) : Except LoadError Pipeline × LoaderState :=
  match e.constructFails model_id with
  | some cause =>
    (Except.error (LoadError.constructionFailed model_id cause),
     { st with _model := none, _model_id := none })
  | none =>
    let _token := resolve_hf_token e hf_token
    let inner : Pipeline := freshPipeline e st model_id
    let st1 := { st with constructCount := st.constructCount + 1,
                         _model_id := some model_id }
    if is_model_retentation_reload e.settings then
      (Except.ok inner, { st1 with _model := none })
    else
      (Except.ok inner, { st1 with _model := some inner })

/-- Translation of `get_or_load_model`: cache hit when `_model` is set and
`_model_id == model_id`; on an identifier switch `_model` is cleared first;
otherwise fall through to the load path. -/
def get_or_load_model (e : Env) (st : LoaderState) (model_id : String)
    (hf_token : Option String) : Except LoadError Pipeline × LoaderState :=
  match st._model with
  | some m =>
    if st._model_id = some model_id then (Except.ok m, st)
    else load_model_miss e { st with _model := none } model_id hf_token
  | none => load_model_miss e st model_id hf_token

/-- The `try` block of `get_or_load_image_editing_model` on a cache miss;
identical lifecycle to `load_model_miss` but acting on the image-editing
globals. -/
def load_image_editing_miss (e : Env) (st : LoaderState) (model_id : String)
    (hf_token : Option String) : Except LoadError Pipeline × LoaderState :=
  match e.constructFails model_id with
  | some cause =>
    (Except.error (LoadError.constructionFailed model_id cause),
     { st with _image_editing_model := none, _image_editing_model_id := none })
  | none =>
    let _token := resolve_hf_token e hf_token
    let inner : Pipeline := freshPipeline e st model_id
    let st1 := { st with constructCount := st.constructCount + 1,
                         _image_editing_model_id := some model_id }
    if is_model_retentation_reload e.settings then
      (Except.ok inner, { st1 with _image_editing_model := none })
    else
      (Except.ok inner, { st1 with _image_editing_model := some inner })

/-- Translation of `get_or_load_image_editing_model`. -/
def get_or_load_image_editing_model (e : Env) (st : LoaderState)
    (model_id : String) (hf_token : Option String) :
    Except LoadError Pipeline × LoaderState :=
  match st._image_editing_model with
  | some m =>
    if st._image_editing_model_id = some model_id then (Except.ok m, st)
    else load_image_editing_miss e { st with _image_editing_model := none }
      model_id hf_token
  | none => load_image_editing_miss e st model_id hf_token

/-- The `try` block of `get_or_load_upscaler_model` on a cache miss.  Unlike
the other two loaders it never consults the CPU-offload setting: after
enabling VAE tiling/slicing it unconditionally moves the pipeline `.to(device)`. -/
def load_upscaler_miss (e : Env) (st : LoaderState) (model_id : String)
    (hf_token : Option String) : Except LoadError Pipeline × LoaderState :=
  match e.constructFails model_id with
  | some cause =>
    (Except.error (LoadError.constructionFailed model_id cause),
     { st with _upscaler_model := none, _upscaler_model_id := none })
  | none =>
    let _token := resolve_hf_token e hf_token
    let inner : Pipeline := freshUpscalerPipeline e st model_id
    let st1 := { st with constructCount := st.constructCount + 1,
                         _upscaler_model_id := some model_id }
    if is_model_retentation_reload e.settings then
      (Except.ok inner, { st1 with _upscaler_model := none })
    else
      (Except.ok inner, { st1 with _upscaler_model := some inner })

/-- Translation of `get_or_load_upscaler_model`. -/
def get_or_load_upscaler_model (e : Env) (st : LoaderState)
    (model_id : String) (hf_token : Option String) :
    Except LoadError Pipeline × LoaderState :=
  match st._upscaler_model with
  | some m =>
    if st._upscaler_model_id = some model_id then (Except.ok m, st)
    else load_upscaler_miss e { st with _upscaler_model := none }
      model_id hf_token
  | none => load_upscaler_miss e st model_id hf_token

/-- Translation of `unload_models`: each pair of globals is cleared only when
the instance global is set (`if _model is not None:`), so a dangling id with
no instance is left as is. -/
def unload_models (st : LoaderState) : LoaderState :=
  let st1 :=
    if st._model.isSome then { st with _model := none, _model_id := none }
    else st
  let st2 :=
    if st1._image_editing_model.isSome then
      { st1 with _image_editing_model := none, _image_editing_model_id := none }
    else st1
  if st2._upscaler_model.isSome then
    { st2 with _upscaler_model := none, _upscaler_model_id := none }
  else st2

/-- Translation of `unload_model(model)`: the argument is a Python value
(`None` or a pipeline object) compared against each global with `==`
(identity semantics for pipeline objects, and `None == None` is true).  When
no global matches, only the local variable is reassigned and every global is
left untouched. -/
def unload_model (st : LoaderState) (model : Option Pipeline) : LoaderState :=
  if model = st._model then { st with _model := none, _model_id := none }
  else if model = st._image_editing_model then
    { st with _image_editing_model := none, _image_editing_model_id := none }
  else if model = st._upscaler_model then
    { st with _upscaler_model := none, _upscaler_model_id := none }
  else st

/-- The three resource categories of the manager. -/
inductive ResourceCategory
  | textToImage
  | imageEditing
  | upscaler
deriving DecidableEq, Repr

/-- Category-indexed acquire: routes to the matching loader function. -/
def acquire (c : ResourceCategory) (e : Env) (st : LoaderState)
    (model_id : String) (hf_token : Option String) :
    Except LoadError Pipeline × LoaderState :=
  match c with
  | ResourceCategory.textToImage => get_or_load_model e st model_id hf_token
  | ResourceCategory.imageEditing =>
    get_or_load_image_editing_model e st model_id hf_token
  | ResourceCategory.upscaler => get_or_load_upscaler_model e st model_id hf_token

/-- The cached instance of a category's slot. -/
def slotInstance : ResourceCategory → LoaderState → Option Pipeline
  | ResourceCategory.textToImage, st => st._model
  | ResourceCategory.imageEditing, st => st._image_editing_model
  | ResourceCategory.upscaler, st => st._upscaler_model

/-- The loaded identifier of a category's slot. -/
def slotId : ResourceCategory → LoaderState → Option String
  | ResourceCategory.textToImage, st => st._model_id
  | ResourceCategory.imageEditing, st => st._image_editing_model_id
  | ResourceCategory.upscaler, st => st._upscaler_model_id

/-- The model lifecycle portion of `generate_text_to_image` in
`src/core/ml_models.py`: acquire the model, use it, and when the retention
setting is reload, call `unload_model` on the returned instance afterwards
(the invocation itself is opaque here and assumed to succeed). -/
def generate_text_to_image_lifecycle (e : Env) (st : LoaderState)
    (model_id : String) : Except LoadError Pipeline × LoaderState :=
  match get_or_load_model e st model_id none with
  | (Except.ok m, st1) =>
    if is_model_retentation_reload e.settings then
      (Except.ok m, unload_model st1 (some m))
    else (Except.ok m, st1)
  | (Except.error err, st1) => (Except.error err, st1)

/-- The per-slot cache invariant claimed by the spec:
the cached instance is present iff the loaded identifier is present. -/
def slotInv (st : LoaderState) : Prop :=
  (st._model.isSome ↔ st._model_id.isSome) ∧
  (st._image_editing_model.isSome ↔ st._image_editing_model_id.isSome) ∧
  (st._upscaler_model.isSome ↔ st._upscaler_model_id.isSome)

instance (st : LoaderState) : Decidable (slotInv st) := by
  unfold slotInv
  infer_instance

/-- The returned pipeline that a category's successful miss produces. -/
def freshFor : ResourceCategory → Env → LoaderState → String → Pipeline
  | ResourceCategory.upscaler, e, st, id => freshUpscalerPipeline e st id
  | _, e, st, id => freshPipeline e st id

/-! Concrete environments used to instantiate the theorems below. -/

/-- A CUDA host with empty settings file (all defaults: retention keep,
offload disabled), no environment variables, all constructions succeeding. -/
def envPlain : Env :=
  { cuda_available := true, xpu_available := false
    osEnviron := fun _ => none
    settings := fun _ => none
    constructFails := fun _ => none }

/-- A host whose only accelerator is an XPU. -/
def envXpu : Env :=
  { cuda_available := false, xpu_available := true
    osEnviron := fun _ => none
    settings := fun _ => none
    constructFails := fun _ => none }

/-- A settings store holding the reload retention strategy under the key the
code actually reads. -/
def settingsReload : Settings := fun k =>
  if k = "model_load_retentation_strategy" then some (SettingVal.vStr "reload")
  else none

/-- A CPU host with reload retention configured and all constructions
succeeding. -/
def envReload : Env :=
  { cuda_available := false, xpu_available := false
    osEnviron := fun _ => none
    settings := settingsReload
    constructFails := fun _ => none }

/-- A CUDA host where loading the model id "bad-model" raises with cause
"boom" and every other load succeeds. -/
def envFailing : Env :=
  { cuda_available := true, xpu_available := false
    osEnviron := fun _ => none
    settings := fun _ => none
    constructFails := fun idX => if idX = "bad-model" then some "boom" else none }

/-- A settings store enabling CPU offloading. -/
def settingsOffload : Settings := fun k =>
  if k = "use_cpu_offloading" then some (SettingVal.vBool true) else none

/-- A CUDA host with CPU offloading enabled in settings. -/
def envOffloadCuda : Env :=
  { cuda_available := true, xpu_available := false
    osEnviron := fun _ => none
    settings := settingsOffload
    constructFails := fun _ => none }

/-- An environment providing the token "E" through the first fallback source. -/
def envTokenE : Env :=
  { cuda_available := false, xpu_available := false
    osEnviron := fun v => if v = "HUGGINGFACE_HUB_TOKEN" then some "E" else none
    settings := fun _ => none
    constructFails := fun _ => none }

/-- A settings store where the correctly spelled key of the spec holds
"reload" but the misspelled key the code reads is absent. -/
def settingsSpecSpelling : Settings := fun k =>
  if k = "model_load_retention_strategy" then some (SettingVal.vStr "reload")
  else none

/-- A pipeline object that is not cached in any slot of `initState`. -/
def strayPipeline : Pipeline :=
  { pid := 7, modelId := "model-A", offloadConfigured := false, placement := "cpu" }

/-! ### Behaviour lemmas for the loaders -/

theorem update_model_none_eq (st : LoaderState) (h : st._model = none) :
    { st with _model := none } = st := by
  cases st
  simp_all

theorem update_ie_none_eq (st : LoaderState) (h : st._image_editing_model = none) :
    { st with _image_editing_model := none } = st := by
  cases st
  simp_all

theorem update_up_none_eq (st : LoaderState) (h : st._upscaler_model = none) :
    { st with _upscaler_model := none } = st := by
  cases st
  simp_all

theorem get_or_load_model_hit (e : Env) (st : LoaderState) (id : String)
    (tok : Option String) (m : Pipeline) (hm : st._model = some m)
    (hid : st._model_id = some id) :
    get_or_load_model e st id tok = (Except.ok m, st) := by
  unfold get_or_load_model
  simp [hm, hid]

theorem get_or_load_model_not_hit (e : Env) (st : LoaderState) (id : String)
    (tok : Option String) (h : st._model = none ∨ st._model_id ≠ some id) :
    get_or_load_model e st id tok
      = load_model_miss e { st with _model := none } id tok := by
  unfold get_or_load_model
  cases hm : st._model with
  | none => rw [update_model_none_eq st hm]
  | some m =>
    rcases h with h | h
    · rw [hm] at h
      exact absurd h (by simp)
    · simp [h]

theorem load_model_miss_fail (e : Env) (st : LoaderState) (id : String)
    (tok : Option String) (cause : String)
    (hc : e.constructFails id = some cause) :
    load_model_miss e st id tok
      = (Except.error (LoadError.constructionFailed id cause),
         { st with _model := none, _model_id := none }) := by
  unfold load_model_miss
  rw [hc]

theorem load_model_miss_keep (e : Env) (st : LoaderState) (id : String)
    (tok : Option String) (hc : e.constructFails id = none)
    (hkeep : is_model_retentation_reload e.settings = false) :
    load_model_miss e st id tok
      = (Except.ok (freshPipeline e st id),
         { st with _model := some (freshPipeline e st id),
                   _model_id := some id,
                   constructCount := st.constructCount + 1 }) := by
  unfold load_model_miss
  rw [hc]
  simp [hkeep]

theorem load_model_miss_reload (e : Env) (st : LoaderState) (id : String)
    (tok : Option String) (hc : e.constructFails id = none)
    (hre : is_model_retentation_reload e.settings = true) :
    load_model_miss e st id tok
      = (Except.ok (freshPipeline e st id),
         { st with _model := none,
                   _model_id := some id,
                   constructCount := st.constructCount + 1 }) := by
  unfold load_model_miss
  rw [hc]
  simp [hre]

theorem get_or_load_ie_hit (e : Env) (st : LoaderState) (id : String)
    (tok : Option String) (m : Pipeline) (hm : st._image_editing_model = some m)
    (hid : st._image_editing_model_id = some id) :
    get_or_load_image_editing_model e st id tok = (Except.ok m, st) := by
  unfold get_or_load_image_editing_model
  simp [hm, hid]

theorem get_or_load_ie_not_hit (e : Env) (st : LoaderState) (id : String)
    (tok : Option String)
    (h : st._image_editing_model = none ∨ st._image_editing_model_id ≠ some id) :
    get_or_load_image_editing_model e st id tok
      = load_image_editing_miss e { st with _image_editing_model := none } id tok := by
  unfold get_or_load_image_editing_model
  cases hm : st._image_editing_model with
  | none => rw [update_ie_none_eq st hm]
  | some m =>
    rcases h with h | h
    · rw [hm] at h
      exact absurd h (by simp)
    · simp [h]

theorem load_ie_miss_fail (e : Env) (st : LoaderState) (id : String)
    (tok : Option String) (cause : String)
    (hc : e.constructFails id = some cause) :
    load_image_editing_miss e st id tok
      = (Except.error (LoadError.constructionFailed id cause),
         { st with _image_editing_model := none, _image_editing_model_id := none }) := by
  unfold load_image_editing_miss
  rw [hc]

theorem load_ie_miss_keep (e : Env) (st : LoaderState) (id : String)
    (tok : Option String) (hc : e.constructFails id = none)
    (hkeep : is_model_retentation_reload e.settings = false) :
    load_image_editing_miss e st id tok
      = (Except.ok (freshPipeline e st id),
         { st with _image_editing_model := some (freshPipeline e st id),
                   _image_editing_model_id := some id,
                   constructCount := st.constructCount + 1 }) := by
  unfold load_image_editing_miss
  rw [hc]
  simp [hkeep]

theorem load_ie_miss_reload (e : Env) (st : LoaderState) (id : String)
    (tok : Option String) (hc : e.constructFails id = none)
    (hre : is_model_retentation_reload e.settings = true) :
    load_image_editing_miss e st id tok
      = (Except.ok (freshPipeline e st id),
         { st with _image_editing_model := none,
                   _image_editing_model_id := some id,
                   constructCount := st.constructCount + 1 }) := by
  unfold load_image_editing_miss
  rw [hc]
  simp [hre]

theorem get_or_load_up_hit (e : Env) (st : LoaderState) (id : String)
    (tok : Option String) (m : Pipeline) (hm : st._upscaler_model = some m)
    (hid : st._upscaler_model_id = some id) :
    get_or_load_upscaler_model e st id tok = (Except.ok m, st) := by
  unfold get_or_load_upscaler_model
  simp [hm, hid]

theorem get_or_load_up_not_hit (e : Env) (st : LoaderState) (id : String)
    (tok : Option String)
    (h : st._upscaler_model = none ∨ st._upscaler_model_id ≠ some id) :
    get_or_load_upscaler_model e st id tok
      = load_upscaler_miss e { st with _upscaler_model := none } id tok := by
  unfold get_or_load_upscaler_model
  cases hm : st._upscaler_model with
  | none => rw [update_up_none_eq st hm]
  | some m =>
    rcases h with h | h
    · rw [hm] at h
      exact absurd h (by simp)
    · simp [h]

theorem load_up_miss_fail (e : Env) (st : LoaderState) (id : String)
    (tok : Option String) (cause : String)
    (hc : e.constructFails id = some cause) :
    load_upscaler_miss e st id tok
      = (Except.error (LoadError.constructionFailed id cause),
         { st with _upscaler_model := none, _upscaler_model_id := none }) := by
  unfold load_upscaler_miss
  rw [hc]

theorem load_up_miss_keep (e : Env) (st : LoaderState) (id : String)
    (tok : Option String) (hc : e.constructFails id = none)
    (hkeep : is_model_retentation_reload e.settings = false) :
    load_upscaler_miss e st id tok
      = (Except.ok (freshUpscalerPipeline e st id),
         { st with _upscaler_model := some (freshUpscalerPipeline e st id),
                   _upscaler_model_id := some id,
                   constructCount := st.constructCount + 1 }) := by
  unfold load_upscaler_miss
  rw [hc]
  simp [hkeep]

theorem load_up_miss_reload (e : Env) (st : LoaderState) (id : String)
    (tok : Option String) (hc : e.constructFails id = none)
    (hre : is_model_retentation_reload e.settings = true) :
    load_upscaler_miss e st id tok
      = (Except.ok (freshUpscalerPipeline e st id),
         { st with _upscaler_model := none,
                   _upscaler_model_id := some id,
                   constructCount := st.constructCount + 1 }) := by
  unfold load_upscaler_miss
  rw [hc]
  simp [hre]

theorem probe_eq_firstNonEmpty (e : Env) (l : List String) :
    probe_env_token e l = firstNonEmpty e l := by
  induction l with
  | nil => rfl
  | cons v rest ih =>
    unfold probe_env_token
    simp only [firstNonEmpty, List.findSome?_cons] at ih ⊢
    cases h : e.osEnviron v with
    | none => exact ih
    | some val =>
      by_cases hv : val = ""
      · subst hv
        simpa using ih
      · simp [hv]

/-- C7 (counterexample): on a host whose accelerator is an XPU (no CUDA), the
selected device is the accelerator "xpu", yet the quantization policy returns
the coarse configuration: double quantization disabled and full-precision
(float32) compute, contradicting the claim that any accelerator-class device
gets double quantization and half-precision compute. -/
theorem C7_counterexample :
    get_device envXpu = "xpu" ∧
    (get_bnb_4bit_config envXpu).bnb_4bit_use_double_quant = false ∧
    (get_bnb_4bit_config envXpu).bnb_4bit_compute_type = "float32" := by
  refine ⟨rfl, rfl, rfl⟩

/-- C7 (amended): the quantization policy always returns a 4-bit nf4
configuration and never fails; double quantization is enabled with
half-precision compute exactly when CUDA is available, and otherwise —
including on XPU accelerator hosts — quantization stays enabled with double
quantization disabled and full-precision compute. -/
theorem C7_quant_config (e : Env) :
    (get_bnb_4bit_config e).load_in_4bit = true ∧
    (get_bnb_4bit_config e).bnb_4bit_quant_type = "nf4" ∧
    (e.cuda_available = true →
      (get_bnb_4bit_config e).bnb_4bit_use_double_quant = true ∧
      (get_bnb_4bit_config e).bnb_4bit_compute_type = "float16") ∧
    (e.cuda_available = false →
      (get_bnb_4bit_config e).bnb_4bit_use_double_quant = false ∧
      (get_bnb_4bit_config e).bnb_4bit_compute_type = "float32") := by
  unfold get_bnb_4bit_config
  cases h : e.cuda_available <;> simp [h]

/-- C7 witness: the amended theorem applied to the CUDA host. -/
theorem C7_quant_config_witness :
    (get_bnb_4bit_config envPlain).bnb_4bit_use_double_quant = true ∧
    (get_bnb_4bit_config envPlain).bnb_4bit_compute_type = "float16" :=
  (C7_quant_config envPlain).2.2.1 rfl

/-- C8 (counterexample): with an explicit but empty token (present as a
value, falsy in Python), `resolve_hf_token` does not return the explicit
token: it falls through to the environment sources and returns "E". -/
theorem C8_counterexample :
    resolve_hf_token envTokenE (some "") = some "E" ∧
    (some "E" : Option String) ≠ some "" := by
  refine ⟨rfl, by decide⟩

/-- C8 (amended): `resolve_hf_token` returns the explicit token when it is
present and non-empty; otherwise (absent or empty explicit token) it returns
the first non-empty value found probing the fixed ordered list of environment
variables, and none when every source is absent or empty; it is a total
function, so no error is raised for an absent token.  In particular a
non-empty explicit token T always wins over an environment-provided token. -/
theorem C8_resolve_token (e : Env) (tok : Option String) :
    (resolve_hf_token e tok =
      match tok with
      | some t => if t = "" then firstNonEmpty e hfEnvVars else some t
      | none => firstNonEmpty e hfEnvVars) ∧
    (∀ t, t ≠ "" → resolve_hf_token e (some t) = some t) := by
  constructor
  · cases tok with
    | none => simp [resolve_hf_token, strTruthy, probe_eq_firstNonEmpty]
    | some t =>
      by_cases h : t = "" <;>
        simp [resolve_hf_token, strTruthy, h, probe_eq_firstNonEmpty]
  · intro t ht
    simp [resolve_hf_token, strTruthy, ht]

/-- C8 witness: the amended theorem applied with explicit token "T" in an
environment that also provides "E": "T" wins. -/
theorem C8_resolve_token_witness :
    resolve_hf_token envTokenE (some "T") = some "T" :=
  (C8_resolve_token envTokenE (some "T")).2 "T" (by decide)

/-- C9 (counterexample): a settings store holding "reload" under the
correctly spelled key `model_load_retention_strategy` of the claim does not
make the code's retention check return reload — the code reads the misspelled
key `model_load_retentation_strategy`. -/
theorem C9_counterexample :
    settingsSpecSpelling "model_load_retention_strategy"
      = some (SettingVal.vStr "reload") ∧
    is_model_retentation_reload settingsSpecSpelling = false := by
  refine ⟨rfl, rfl⟩

/-- C9 (amended): the retention policy is reload exactly when the settings
key `model_load_retentation_strategy` (the misspelled key the code reads and
the admin endpoint writes) holds the string "reload", defaulting to keep when
the key is absent or holds any other value; the offload flag equals the
boolean stored under `use_cpu_offloading` and defaults to false when that key
is absent. -/
theorem C9_settings_flags (s : Settings) :
    (is_model_retentation_reload s = true ↔
      s "model_load_retentation_strategy" = some (SettingVal.vStr "reload")) ∧
    (s "model_load_retentation_strategy" = none →
      is_model_retentation_reload s = false) ∧
    (s "use_cpu_offloading" = none → is_use_cpu_offload_enabled s = false) ∧
    (∀ b, s "use_cpu_offloading" = some (SettingVal.vBool b) →
      is_use_cpu_offload_enabled s = b) := by
  refine ⟨?_, ?_, ?_, ?_⟩
  · unfold is_model_retentation_reload
    cases h : s "model_load_retentation_strategy" with
    | none => simp
    | some val =>
      cases val with
      | vBool b => simp
      | vStr v => simp
  · intro h
    unfold is_model_retentation_reload
    rw [h]
  · intro h
    unfold is_use_cpu_offload_enabled
    rw [h]
  · intro b h
    unfold is_use_cpu_offload_enabled
    rw [h]

/-- C9 witness: the amended theorem applied to the reload store and to the
empty store. -/
theorem C9_settings_flags_witness :
    is_model_retentation_reload settingsReload = true ∧
    is_use_cpu_offload_enabled settingsReload = false ∧
    is_model_retentation_reload (fun _ => none) = false := by
  refine ⟨(C9_settings_flags settingsReload).1.mpr rfl,
          (C9_settings_flags settingsReload).2.2.1 rfl,
          (C9_settings_flags (fun _ => none)).2.1 rfl⟩

/-- C10: calling `unload_model` with an object that is not the cached
instance of any of the three slots leaves the entire loader state unchanged
(no slot's instance or identifier is modified) and cannot fail. -/
theorem C10_unload_unknown_frame (st : LoaderState) (m : Pipeline)
    (h1 : some m ≠ st._model) (h2 : some m ≠ st._image_editing_model)
    (h3 : some m ≠ st._upscaler_model) :
    unload_model st (some m) = st := by
  unfold unload_model
  simp [h1, h2, h3]

/-- C10 witness: unloading a stray pipeline from the initial state is a
no-op. -/
theorem C10_unload_unknown_frame_witness :
    unload_model initState (some strayPipeline) = initState :=
  C10_unload_unknown_frame initState strayPipeline (by decide) (by decide)
    (by decide)

/-- C1: if pipeline construction during an acquire raises (the call is not a
pure cache hit, so construction is actually attempted), the acquire returns a
construction-failed error carrying the identifier and the underlying cause,
and the slot is reset to Empty: both the cached instance and the loaded
identifier are cleared, so any subsequent acquire for the same or a different
identifier starts from a clean empty slot. -/
theorem C1_failure_resets_slot (c : ResourceCategory) (e : Env)
    (st : LoaderState) (id : String) (tok : Option String) (cause : String)
    (hfail : e.constructFails id = some cause)
    (hmiss : slotInstance c st = none ∨ slotId c st ≠ some id) :
    (acquire c e st id tok).1
      = Except.error (LoadError.constructionFailed id cause) ∧
    slotInstance c (acquire c e st id tok).2 = none ∧
    slotId c (acquire c e st id tok).2 = none := by
  cases c with
  | textToImage =>
    have hred : acquire ResourceCategory.textToImage e st id tok
        = load_model_miss e { st with _model := none } id tok :=
      get_or_load_model_not_hit e st id tok hmiss
    rw [hred, load_model_miss_fail e _ id tok cause hfail]
    exact ⟨rfl, rfl, rfl⟩
  | imageEditing =>
    have hred : acquire ResourceCategory.imageEditing e st id tok
        = load_image_editing_miss e { st with _image_editing_model := none }
            id tok :=
      get_or_load_ie_not_hit e st id tok hmiss
    rw [hred, load_ie_miss_fail e _ id tok cause hfail]
    exact ⟨rfl, rfl, rfl⟩
  | upscaler =>
    have hred : acquire ResourceCategory.upscaler e st id tok
        = load_upscaler_miss e { st with _upscaler_model := none } id tok :=
      get_or_load_up_not_hit e st id tok hmiss
    rw [hred, load_up_miss_fail e _ id tok cause hfail]
    exact ⟨rfl, rfl, rfl⟩

/-- C1 witness: loading "bad-model" on the failing host errors with the
identifier and cause and leaves the text-to-image slot empty. -/
theorem C1_failure_resets_slot_witness :
    (acquire ResourceCategory.textToImage envFailing initState "bad-model" none).1
      = Except.error (LoadError.constructionFailed "bad-model" "boom") ∧
    slotInstance ResourceCategory.textToImage
      (acquire ResourceCategory.textToImage envFailing initState "bad-model" none).2
      = none ∧
    slotId ResourceCategory.textToImage
      (acquire ResourceCategory.textToImage envFailing initState "bad-model" none).2
      = none :=
  C1_failure_resets_slot ResourceCategory.textToImage envFailing initState
    "bad-model" none "boom" rfl (Or.inl rfl)

theorem t2i_keep_cache (e : Env) (st : LoaderState) (id : String)
    (tok : Option String)
    (hkeep : is_model_retentation_reload e.settings = false)
    (hok : e.constructFails id = none) :
    get_or_load_model e (get_or_load_model e st id tok).2 id tok
      = get_or_load_model e st id tok ∧
    (get_or_load_model e st id tok).1.toOption.isSome = true := by
  by_cases hid : st._model_id = some id
  · cases hm : st._model with
    | some m =>
      have h1 := get_or_load_model_hit e st id tok m hm hid
      constructor
      · rw [h1]
        exact get_or_load_model_hit e st id tok m hm hid
      · rw [h1]
        rfl
    | none =>
      have h1 := get_or_load_model_not_hit e st id tok (Or.inl hm)
      rw [h1, load_model_miss_keep e _ id tok hok hkeep]
      exact ⟨get_or_load_model_hit e _ id tok _ rfl rfl, rfl⟩
  · have h1 := get_or_load_model_not_hit e st id tok (Or.inr hid)
    rw [h1, load_model_miss_keep e _ id tok hok hkeep]
    exact ⟨get_or_load_model_hit e _ id tok _ rfl rfl, rfl⟩

theorem ie_keep_cache (e : Env) (st : LoaderState) (id : String)
    (tok : Option String)
    (hkeep : is_model_retentation_reload e.settings = false)
    (hok : e.constructFails id = none) :
    get_or_load_image_editing_model e
        (get_or_load_image_editing_model e st id tok).2 id tok
      = get_or_load_image_editing_model e st id tok ∧
    (get_or_load_image_editing_model e st id tok).1.toOption.isSome = true := by
  by_cases hid : st._image_editing_model_id = some id
  · cases hm : st._image_editing_model with
    | some m =>
      have h1 := get_or_load_ie_hit e st id tok m hm hid
      constructor
      · rw [h1]
        exact get_or_load_ie_hit e st id tok m hm hid
      · rw [h1]
        rfl
    | none =>
      have h1 := get_or_load_ie_not_hit e st id tok (Or.inl hm)
      rw [h1, load_ie_miss_keep e _ id tok hok hkeep]
      exact ⟨get_or_load_ie_hit e _ id tok _ rfl rfl, rfl⟩
  · have h1 := get_or_load_ie_not_hit e st id tok (Or.inr hid)
    rw [h1, load_ie_miss_keep e _ id tok hok hkeep]
    exact ⟨get_or_load_ie_hit e _ id tok _ rfl rfl, rfl⟩

theorem up_keep_cache (e : Env) (st : LoaderState) (id : String)
    (tok : Option String)
    (hkeep : is_model_retentation_reload e.settings = false)
    (hok : e.constructFails id = none) :
    get_or_load_upscaler_model e
        (get_or_load_upscaler_model e st id tok).2 id tok
      = get_or_load_upscaler_model e st id tok ∧
    (get_or_load_upscaler_model e st id tok).1.toOption.isSome = true := by
  by_cases hid : st._upscaler_model_id = some id
  · cases hm : st._upscaler_model with
    | some m =>
      have h1 := get_or_load_up_hit e st id tok m hm hid
      constructor
      · rw [h1]
        exact get_or_load_up_hit e st id tok m hm hid
      · rw [h1]
        rfl
    | none =>
      have h1 := get_or_load_up_not_hit e st id tok (Or.inl hm)
      rw [h1, load_up_miss_keep e _ id tok hok hkeep]
      exact ⟨get_or_load_up_hit e _ id tok _ rfl rfl, rfl⟩
  · have h1 := get_or_load_up_not_hit e st id tok (Or.inr hid)
    rw [h1, load_up_miss_keep e _ id tok hok hkeep]
    exact ⟨get_or_load_up_hit e _ id tok _ rfl rfl, rfl⟩

/-- C3: under keep retention and a successfully loadable identifier, two
consecutive acquires of the same identifier in any category agree completely:
the second call returns the very same instance and the very same state as the
first (hence performs no construction — the construction counter is part of
the state), and the calls succeed. -/
theorem C3_keep_identity_cache (c : ResourceCategory) (e : Env)
    (st : LoaderState) (id : String) (tok : Option String)
    (hkeep : is_model_retentation_reload e.settings = false)
    (hok : e.constructFails id = none) :
    acquire c e (acquire c e st id tok).2 id tok = acquire c e st id tok ∧
    (acquire c e st id tok).1.toOption.isSome = true := by
  cases c with
  | textToImage => exact t2i_keep_cache e st id tok hkeep hok
  | imageEditing => exact ie_keep_cache e st id tok hkeep hok
  | upscaler => exact up_keep_cache e st id tok hkeep hok

/-- C3 witness: two acquires of "model-A" on the plain keep host. -/
theorem C3_keep_identity_cache_witness :
    acquire ResourceCategory.textToImage envPlain
        (acquire ResourceCategory.textToImage envPlain initState "model-A" none).2
        "model-A" none
      = acquire ResourceCategory.textToImage envPlain initState "model-A" none ∧
    (acquire ResourceCategory.textToImage envPlain initState "model-A" none).1.toOption.isSome
      = true :=
  C3_keep_identity_cache ResourceCategory.textToImage envPlain initState
    "model-A" none rfl rfl

theorem load_model_miss_id_after (e : Env) (st : LoaderState) (X : String)
    (tok : Option String) :
    ((load_model_miss e st X tok).2)._model_id = some X ∨
    ((load_model_miss e st X tok).2)._model_id = none := by
  cases hc : e.constructFails X with
  | some cause =>
    rw [load_model_miss_fail e st X tok cause hc]
    exact Or.inr rfl
  | none =>
    cases hre : is_model_retentation_reload e.settings with
    | true =>
      rw [load_model_miss_reload e st X tok hc hre]
      exact Or.inl rfl
    | false =>
      rw [load_model_miss_keep e st X tok hc hre]
      exact Or.inl rfl

theorem t2i_id_after (e : Env) (st : LoaderState) (X : String)
    (tok : Option String) :
    ((get_or_load_model e st X tok).2)._model_id = some X ∨
    ((get_or_load_model e st X tok).2)._model_id = none := by
  cases hm : st._model with
  | some m =>
    by_cases hid : st._model_id = some X
    · rw [get_or_load_model_hit e st X tok m hm hid]
      exact Or.inl hid
    · rw [get_or_load_model_not_hit e st X tok (Or.inr hid)]
      exact load_model_miss_id_after e _ X tok
  | none =>
    rw [get_or_load_model_not_hit e st X tok (Or.inl hm)]
    exact load_model_miss_id_after e _ X tok

theorem load_ie_miss_id_after (e : Env) (st : LoaderState) (X : String)
    (tok : Option String) :
    ((load_image_editing_miss e st X tok).2)._image_editing_model_id = some X ∨
    ((load_image_editing_miss e st X tok).2)._image_editing_model_id = none := by
  cases hc : e.constructFails X with
  | some cause =>
    rw [load_ie_miss_fail e st X tok cause hc]
    exact Or.inr rfl
  | none =>
    cases hre : is_model_retentation_reload e.settings with
    | true =>
      rw [load_ie_miss_reload e st X tok hc hre]
      exact Or.inl rfl
    | false =>
      rw [load_ie_miss_keep e st X tok hc hre]
      exact Or.inl rfl

theorem ie_id_after (e : Env) (st : LoaderState) (X : String)
    (tok : Option String) :
    ((get_or_load_image_editing_model e st X tok).2)._image_editing_model_id
      = some X ∨
    ((get_or_load_image_editing_model e st X tok).2)._image_editing_model_id
      = none := by
  cases hm : st._image_editing_model with
  | some m =>
    by_cases hid : st._image_editing_model_id = some X
    · rw [get_or_load_ie_hit e st X tok m hm hid]
      exact Or.inl hid
    · rw [get_or_load_ie_not_hit e st X tok (Or.inr hid)]
      exact load_ie_miss_id_after e _ X tok
  | none =>
    rw [get_or_load_ie_not_hit e st X tok (Or.inl hm)]
    exact load_ie_miss_id_after e _ X tok

theorem load_up_miss_id_after (e : Env) (st : LoaderState) (X : String)
    (tok : Option String) :
    ((load_upscaler_miss e st X tok).2)._upscaler_model_id = some X ∨
    ((load_upscaler_miss e st X tok).2)._upscaler_model_id = none := by
  cases hc : e.constructFails X with
  | some cause =>
    rw [load_up_miss_fail e st X tok cause hc]
    exact Or.inr rfl
  | none =>
    cases hre : is_model_retentation_reload e.settings with
    | true =>
      rw [load_up_miss_reload e st X tok hc hre]
      exact Or.inl rfl
    | false =>
      rw [load_up_miss_keep e st X tok hc hre]
      exact Or.inl rfl

theorem up_id_after (e : Env) (st : LoaderState) (X : String)
    (tok : Option String) :
    ((get_or_load_upscaler_model e st X tok).2)._upscaler_model_id = some X ∨
    ((get_or_load_upscaler_model e st X tok).2)._upscaler_model_id = none := by
  cases hm : st._upscaler_model with
  | some m =>
    by_cases hid : st._upscaler_model_id = some X
    · rw [get_or_load_up_hit e st X tok m hm hid]
      exact Or.inl hid
    · rw [get_or_load_up_not_hit e st X tok (Or.inr hid)]
      exact load_up_miss_id_after e _ X tok
  | none =>
    rw [get_or_load_up_not_hit e st X tok (Or.inl hm)]
    exact load_up_miss_id_after e _ X tok

/-- C4 (counterexample): under reload retention (a policy the claim does not
exclude), acquire("model-A") followed by acquire("model-B") leaves the
text-to-image slot holding no instance at all rather than model-B's
instance. -/
theorem C4_counterexample :
    ("model-A" : String) ≠ "model-B" ∧
    slotInstance ResourceCategory.textToImage
      (acquire ResourceCategory.textToImage envReload
        (acquire ResourceCategory.textToImage envReload initState
          "model-A" none).2
        "model-B" none).2 = none := by
  exact ⟨by decide, rfl⟩

/-- C4 (amended): under keep retention, for distinct identifiers X and Y in
any category, acquire(X) then acquire(Y) leaves the slot holding exactly the
freshly constructed instance for Y with loaded identifier Y; that instance's
identifier is Y and not X, so X's instance is no longer held (at most one
instance per slot is resident, the slot being a single optional cell). -/
theorem C4_switch_evicts (c : ResourceCategory) (e : Env) (st : LoaderState)
    (X Y : String) (tok : Option String) (hne : X ≠ Y)
    (hkeep : is_model_retentation_reload e.settings = false)
    (hokY : e.constructFails Y = none) :
    slotInstance c (acquire c e (acquire c e st X tok).2 Y tok).2
      = some (freshFor c e (acquire c e st X tok).2 Y) ∧
    slotId c (acquire c e (acquire c e st X tok).2 Y tok).2 = some Y ∧
    (freshFor c e (acquire c e st X tok).2 Y).modelId = Y ∧
    (freshFor c e (acquire c e st X tok).2 Y).modelId ≠ X := by
  cases c with
  | textToImage =>
    have hid : ((get_or_load_model e st X tok).2)._model_id ≠ some Y := by
      rcases t2i_id_after e st X tok with h | h <;> rw [h] <;> simp [hne]
    have hred := get_or_load_model_not_hit e (get_or_load_model e st X tok).2
      Y tok (Or.inr hid)
    refine ⟨?_, ?_, rfl, fun h => hne h.symm⟩
    · rw [show acquire ResourceCategory.textToImage e
            (acquire ResourceCategory.textToImage e st X tok).2 Y tok
          = load_model_miss e
              { (get_or_load_model e st X tok).2 with _model := none } Y tok
          from hred,
          load_model_miss_keep e _ Y tok hokY hkeep]
      rfl
    · rw [show acquire ResourceCategory.textToImage e
            (acquire ResourceCategory.textToImage e st X tok).2 Y tok
          = load_model_miss e
              { (get_or_load_model e st X tok).2 with _model := none } Y tok
          from hred,
          load_model_miss_keep e _ Y tok hokY hkeep]
      rfl
  | imageEditing =>
    have hid : ((get_or_load_image_editing_model e st X tok).2)._image_editing_model_id
        ≠ some Y := by
      rcases ie_id_after e st X tok with h | h <;> rw [h] <;> simp [hne]
    have hred := get_or_load_ie_not_hit e
      (get_or_load_image_editing_model e st X tok).2 Y tok (Or.inr hid)
    refine ⟨?_, ?_, rfl, fun h => hne h.symm⟩
    · rw [show acquire ResourceCategory.imageEditing e
            (acquire ResourceCategory.imageEditing e st X tok).2 Y tok
          = load_image_editing_miss e
              { (get_or_load_image_editing_model e st X tok).2 with
                  _image_editing_model := none } Y tok
          from hred,
          load_ie_miss_keep e _ Y tok hokY hkeep]
      rfl
    · rw [show acquire ResourceCategory.imageEditing e
            (acquire ResourceCategory.imageEditing e st X tok).2 Y tok
          = load_image_editing_miss e
              { (get_or_load_image_editing_model e st X tok).2 with
                  _image_editing_model := none } Y tok
          from hred,
          load_ie_miss_keep e _ Y tok hokY hkeep]
      rfl
  | upscaler =>
    have hid : ((get_or_load_upscaler_model e st X tok).2)._upscaler_model_id
        ≠ some Y := by
      rcases up_id_after e st X tok with h | h <;> rw [h] <;> simp [hne]
    have hred := get_or_load_up_not_hit e
      (get_or_load_upscaler_model e st X tok).2 Y tok (Or.inr hid)
    refine ⟨?_, ?_, rfl, fun h => hne h.symm⟩
    · rw [show acquire ResourceCategory.upscaler e
            (acquire ResourceCategory.upscaler e st X tok).2 Y tok
          = load_upscaler_miss e
              { (get_or_load_upscaler_model e st X tok).2 with
                  _upscaler_model := none } Y tok
          from hred,
          load_up_miss_keep e _ Y tok hokY hkeep]
      rfl
    · rw [show acquire ResourceCategory.upscaler e
            (acquire ResourceCategory.upscaler e st X tok).2 Y tok
          = load_upscaler_miss e
              { (get_or_load_upscaler_model e st X tok).2 with
                  _upscaler_model := none } Y tok
          from hred,
          load_up_miss_keep e _ Y tok hokY hkeep]
      rfl

/-- C4 witness: switching from "model-A" to "model-B" on the plain keep
host. -/
theorem C4_switch_evicts_witness :
    slotInstance ResourceCategory.textToImage
      (acquire ResourceCategory.textToImage envPlain
        (acquire ResourceCategory.textToImage envPlain initState
          "model-A" none).2 "model-B" none).2
      = some (freshFor ResourceCategory.textToImage envPlain
          (acquire ResourceCategory.textToImage envPlain initState
            "model-A" none).2 "model-B") ∧
    slotId ResourceCategory.textToImage
      (acquire ResourceCategory.textToImage envPlain
        (acquire ResourceCategory.textToImage envPlain initState
          "model-A" none).2 "model-B" none).2 = some "model-B" ∧
    (freshFor ResourceCategory.textToImage envPlain
      (acquire ResourceCategory.textToImage envPlain initState
        "model-A" none).2 "model-B").modelId = "model-B" ∧
    (freshFor ResourceCategory.textToImage envPlain
      (acquire ResourceCategory.textToImage envPlain initState
        "model-A" none).2 "model-B").modelId ≠ "model-A" :=
  C4_switch_evicts ResourceCategory.textToImage envPlain initState
    "model-A" "model-B" none (by decide) rfl rfl

theorem load_model_miss_inv (e : Env) (st : LoaderState) (id : String)
    (tok : Option String)
    (hIE : st._image_editing_model.isSome ↔ st._image_editing_model_id.isSome)
    (hUp : st._upscaler_model.isSome ↔ st._upscaler_model_id.isSome)
    (hkeep : is_model_retentation_reload e.settings = false) :
    slotInv (load_model_miss e st id tok).2 := by
  cases hc : e.constructFails id with
  | some cause =>
    rw [load_model_miss_fail e st id tok cause hc]
    exact ⟨by simp, hIE, hUp⟩
  | none =>
    rw [load_model_miss_keep e st id tok hc hkeep]
    exact ⟨by simp, hIE, hUp⟩

theorem t2i_inv_keep (e : Env) (st : LoaderState) (id : String)
    (tok : Option String)
    (hkeep : is_model_retentation_reload e.settings = false)
    (hinv : slotInv st) : slotInv (get_or_load_model e st id tok).2 := by
  obtain ⟨h1, h2, h3⟩ := hinv
  cases hm : st._model with
  | some m =>
    by_cases hid : st._model_id = some id
    · rw [get_or_load_model_hit e st id tok m hm hid]
      exact ⟨h1, h2, h3⟩
    · rw [get_or_load_model_not_hit e st id tok (Or.inr hid)]
      exact load_model_miss_inv e _ id tok h2 h3 hkeep
  | none =>
    rw [get_or_load_model_not_hit e st id tok (Or.inl hm)]
    exact load_model_miss_inv e _ id tok h2 h3 hkeep

theorem load_ie_miss_inv (e : Env) (st : LoaderState) (id : String)
    (tok : Option String)
    (hT : st._model.isSome ↔ st._model_id.isSome)
    (hUp : st._upscaler_model.isSome ↔ st._upscaler_model_id.isSome)
    (hkeep : is_model_retentation_reload e.settings = false) :
    slotInv (load_image_editing_miss e st id tok).2 := by
  cases hc : e.constructFails id with
  | some cause =>
    rw [load_ie_miss_fail e st id tok cause hc]
    exact ⟨hT, by simp, hUp⟩
  | none =>
    rw [load_ie_miss_keep e st id tok hc hkeep]
    exact ⟨hT, by simp, hUp⟩

theorem ie_inv_keep (e : Env) (st : LoaderState) (id : String)
    (tok : Option String)
    (hkeep : is_model_retentation_reload e.settings = false)
    (hinv : slotInv st) :
    slotInv (get_or_load_image_editing_model e st id tok).2 := by
  obtain ⟨h1, h2, h3⟩ := hinv
  cases hm : st._image_editing_model with
  | some m =>
    by_cases hid : st._image_editing_model_id = some id
    · rw [get_or_load_ie_hit e st id tok m hm hid]
      exact ⟨h1, h2, h3⟩
    · rw [get_or_load_ie_not_hit e st id tok (Or.inr hid)]
      exact load_ie_miss_inv e _ id tok h1 h3 hkeep
  | none =>
    rw [get_or_load_ie_not_hit e st id tok (Or.inl hm)]
    exact load_ie_miss_inv e _ id tok h1 h3 hkeep

theorem load_up_miss_inv (e : Env) (st : LoaderState) (id : String)
    (tok : Option String)
    (hT : st._model.isSome ↔ st._model_id.isSome)
    (hIE : st._image_editing_model.isSome ↔ st._image_editing_model_id.isSome)
    (hkeep : is_model_retentation_reload e.settings = false) :
    slotInv (load_upscaler_miss e st id tok).2 := by
  cases hc : e.constructFails id with
  | some cause =>
    rw [load_up_miss_fail e st id tok cause hc]
    exact ⟨hT, hIE, by simp⟩
  | none =>
    rw [load_up_miss_keep e st id tok hc hkeep]
    exact ⟨hT, hIE, by simp⟩

theorem up_inv_keep (e : Env) (st : LoaderState) (id : String)
    (tok : Option String)
    (hkeep : is_model_retentation_reload e.settings = false)
    (hinv : slotInv st) :
    slotInv (get_or_load_upscaler_model e st id tok).2 := by
  obtain ⟨h1, h2, h3⟩ := hinv
  cases hm : st._upscaler_model with
  | some m =>
    by_cases hid : st._upscaler_model_id = some id
    · rw [get_or_load_up_hit e st id tok m hm hid]
      exact ⟨h1, h2, h3⟩
    · rw [get_or_load_up_not_hit e st id tok (Or.inr hid)]
      exact load_up_miss_inv e _ id tok h1 h2 hkeep
  | none =>
    rw [get_or_load_up_not_hit e st id tok (Or.inl hm)]
    exact load_up_miss_inv e _ id tok h1 h2 hkeep

theorem unload_models_inv (st : LoaderState) (hinv : slotInv st) :
    slotInv (unload_models st) := by
  obtain ⟨h1, h2, h3⟩ := hinv
  unfold unload_models
  by_cases hm : st._model.isSome <;>
    by_cases hie : st._image_editing_model.isSome <;>
      by_cases hup : st._upscaler_model.isSome <;>
        simp_all [slotInv]

theorem unload_model_inv (st : LoaderState) (m : Option Pipeline)
    (hinv : slotInv st) : slotInv (unload_model st m) := by
  obtain ⟨h1, h2, h3⟩ := hinv
  unfold unload_model
  split
  · exact ⟨by simp, h2, h3⟩
  · split
    · exact ⟨h1, by simp, h3⟩
    · split
      · exact ⟨h1, h2, by simp⟩
      · exact ⟨h1, h2, h3⟩

theorem t2i_reload_violation (e : Env) (st : LoaderState) (id : String)
    (tok : Option String)
    (hre : is_model_retentation_reload e.settings = true)
    (hok : e.constructFails id = none) (hm : st._model = none) :
    ((get_or_load_model e st id tok).2)._model = none ∧
    ((get_or_load_model e st id tok).2)._model_id = some id := by
  rw [get_or_load_model_not_hit e st id tok (Or.inl hm),
      load_model_miss_reload e _ id tok hok hre]
  exact ⟨rfl, rfl⟩

theorem ie_reload_violation (e : Env) (st : LoaderState) (id : String)
    (tok : Option String)
    (hre : is_model_retentation_reload e.settings = true)
    (hok : e.constructFails id = none)
    (hm : st._image_editing_model = none) :
    ((get_or_load_image_editing_model e st id tok).2)._image_editing_model
      = none ∧
    ((get_or_load_image_editing_model e st id tok).2)._image_editing_model_id
      = some id := by
  rw [get_or_load_ie_not_hit e st id tok (Or.inl hm),
      load_ie_miss_reload e _ id tok hok hre]
  exact ⟨rfl, rfl⟩

theorem up_reload_violation (e : Env) (st : LoaderState) (id : String)
    (tok : Option String)
    (hre : is_model_retentation_reload e.settings = true)
    (hok : e.constructFails id = none) (hm : st._upscaler_model = none) :
    ((get_or_load_upscaler_model e st id tok).2)._upscaler_model = none ∧
    ((get_or_load_upscaler_model e st id tok).2)._upscaler_model_id
      = some id := by
  rw [get_or_load_up_not_hit e st id tok (Or.inl hm),
      load_up_miss_reload e _ id tok hok hre]
  exact ⟨rfl, rfl⟩

/-- C2 (counterexample): under reload retention, a completed successful
acquire leaves the text-to-image slot with no cached instance while the
loaded identifier is still set — `instance.is_some ⇔ loaded_identifier.is_some`
fails after that operation. -/
theorem C2_counterexample :
    ((acquire ResourceCategory.textToImage envReload initState
        "model-A" none).2)._model = none ∧
    ((acquire ResourceCategory.textToImage envReload initState
        "model-A" none).2)._model_id = some "model-A" :=
  ⟨rfl, rfl⟩

/-- C2 (amended): the per-slot equivalence `instance.is_some ⇔
loaded_identifier.is_some` is preserved by every completed acquire under keep
retention and by the unload operations under any retention; but under reload
retention a completed, successful, cache-missing acquire leaves the slot with
no instance and the loaded identifier set, breaking the equivalence. -/
theorem C2_slot_invariant (c : ResourceCategory) (e : Env) (st : LoaderState)
    (id : String) (tok : Option String) (m : Option Pipeline)
    (hinv : slotInv st) :
    (is_model_retentation_reload e.settings = false →
      slotInv (acquire c e st id tok).2) ∧
    slotInv (unload_models st) ∧
    slotInv (unload_model st m) ∧
    (is_model_retentation_reload e.settings = true →
      e.constructFails id = none →
      slotInstance c st = none →
      slotInstance c (acquire c e st id tok).2 = none ∧
      slotId c (acquire c e st id tok).2 = some id) := by
  refine ⟨?_, unload_models_inv st hinv, unload_model_inv st m hinv, ?_⟩
  · intro hkeep
    cases c with
    | textToImage => exact t2i_inv_keep e st id tok hkeep hinv
    | imageEditing => exact ie_inv_keep e st id tok hkeep hinv
    | upscaler => exact up_inv_keep e st id tok hkeep hinv
  · intro hre hok hinst
    cases c with
    | textToImage => exact t2i_reload_violation e st id tok hre hok hinst
    | imageEditing => exact ie_reload_violation e st id tok hre hok hinst
    | upscaler => exact up_reload_violation e st id tok hre hok hinst

/-- C2 witness: the amended theorem applied on the keep host (invariant
preserved) and on the reload host (identifier present without instance). -/
theorem C2_slot_invariant_witness :
    slotInv (acquire ResourceCategory.textToImage envPlain initState
      "model-A" none).2 ∧
    slotInv (unload_models initState) ∧
    slotInstance ResourceCategory.textToImage
      (acquire ResourceCategory.textToImage envReload initState
        "model-A" none).2 = none ∧
    slotId ResourceCategory.textToImage
      (acquire ResourceCategory.textToImage envReload initState
        "model-A" none).2 = some "model-A" := by
  have h1 := C2_slot_invariant ResourceCategory.textToImage envPlain initState
    "model-A" none none (by decide)
  have h2 := C2_slot_invariant ResourceCategory.textToImage envReload initState
    "model-A" none none (by decide)
  exact ⟨h1.1 rfl, h1.2.1, (h2.2.2.2 rfl rfl rfl).1, (h2.2.2.2 rfl rfl rfl).2⟩

theorem unload_model_no_match (st : LoaderState) (m : Option Pipeline)
    (h1 : m ≠ st._model) (h2 : m ≠ st._image_editing_model)
    (h3 : m ≠ st._upscaler_model) : unload_model st m = st := by
  unfold unload_model
  simp [h1, h2, h3]

theorem reload_cycle (e : Env) (st : LoaderState) (id : String)
    (hre : is_model_retentation_reload e.settings = true)
    (hok : e.constructFails id = none) (h1 : st._model = none)
    (h2 : st._image_editing_model = none) (h3 : st._upscaler_model = none) :
    generate_text_to_image_lifecycle e st id
      = (Except.ok (freshPipeline e st id),
         { st with _model := none, _model_id := some id,
                   constructCount := st.constructCount + 1 }) := by
  unfold generate_text_to_image_lifecycle
  rw [get_or_load_model_not_hit e st id none (Or.inl h1),
      load_model_miss_reload e _ id none hok hre]
  simp only [hre, if_true]
  rw [unload_model_no_match _ _ (by simp) (by simp [h2]) (by simp [h3])]
  rfl

/-- C5 (counterexample): under reload retention, one full use-cycle (acquire
plus implicit post-use release) does not leave the slot Empty: the cached
instance is cleared but the loaded identifier is still set to the requested
model, because the post-use `unload_model` call compares the returned
instance against globals that already hold `None`. -/
theorem C5_counterexample :
    ((generate_text_to_image_lifecycle envReload initState "model-A").2)._model
      = none ∧
    ((generate_text_to_image_lifecycle envReload initState "model-A").2)._model_id
      = some "model-A" :=
  ⟨rfl, rfl⟩

/-- C5 (amended): under reload retention, starting from a state whose three
instance slots are empty, a full text-to-image use-cycle performs exactly one
construction and leaves the slot with no instance but with the loaded
identifier still set (not fully Empty); two consecutive full use-cycles of
the same identifier perform exactly two constructions and return two distinct
independently constructed instances. -/
theorem C5_reload_two_constructions (e : Env) (st : LoaderState) (id : String)
    (hre : is_model_retentation_reload e.settings = true)
    (hok : e.constructFails id = none) (h1 : st._model = none)
    (h2 : st._image_editing_model = none) (h3 : st._upscaler_model = none) :
    ((generate_text_to_image_lifecycle e st id).2)._model = none ∧
    ((generate_text_to_image_lifecycle e st id).2)._model_id = some id ∧
    (generate_text_to_image_lifecycle e st id).1
      = Except.ok (freshPipeline e st id) ∧
    ((generate_text_to_image_lifecycle e st id).2).constructCount
      = st.constructCount + 1 ∧
    (generate_text_to_image_lifecycle e
        ((generate_text_to_image_lifecycle e st id).2) id).1
      = Except.ok (freshPipeline e
          ((generate_text_to_image_lifecycle e st id).2) id) ∧
    ((generate_text_to_image_lifecycle e
        ((generate_text_to_image_lifecycle e st id).2) id).2).constructCount
      = st.constructCount + 2 ∧
    freshPipeline e st id
      ≠ freshPipeline e ((generate_text_to_image_lifecycle e st id).2) id := by
  have hc1 := reload_cycle e st id hre hok h1 h2 h3
  have hc2 := reload_cycle e ((generate_text_to_image_lifecycle e st id).2) id
    hre hok (by simp [hc1]) (by simp [hc1, h2]) (by simp [hc1, h3])
  refine ⟨by simp [hc1], by simp [hc1], by simp [hc1], by simp [hc1],
          by simp [hc2], by rw [hc2]; simp [hc1], ?_⟩
  intro hEq
  have hpid : st.constructCount
      = ((generate_text_to_image_lifecycle e st id).2).constructCount :=
    congrArg Pipeline.pid hEq
  rw [hc1] at hpid
  simp at hpid

/-- C5 witness: the amended theorem applied on the reload host from the
initial state with identifier "model-A". -/
theorem C5_reload_two_constructions_witness :
    ((generate_text_to_image_lifecycle envReload initState "model-A").2)._model_id
      = some "model-A" ∧
    ((generate_text_to_image_lifecycle envReload initState "model-A").2).constructCount
      = 1 ∧
    ((generate_text_to_image_lifecycle envReload
        ((generate_text_to_image_lifecycle envReload initState "model-A").2)
        "model-A").2).constructCount = 2 ∧
    freshPipeline envReload initState "model-A"
      ≠ freshPipeline envReload
          ((generate_text_to_image_lifecycle envReload initState "model-A").2)
          "model-A" := by
  have h := C5_reload_two_constructions envReload initState "model-A"
    rfl rfl rfl rfl rfl
  exact ⟨h.2.1, h.2.2.2.1, h.2.2.2.2.2.1, h.2.2.2.2.2.2⟩

/-- C6 (counterexample): with CPU offloading enabled in settings, a cache
miss in the upscaler category neither configures offload staging nor places
the pipeline on CPU: the constructed pipeline has no offload configured and
full residency on the selected device "cuda". -/
theorem C6_counterexample :
    is_use_cpu_offload_enabled envOffloadCuda.settings = true ∧
    (get_or_load_upscaler_model envOffloadCuda initState "up-model" none).1
      = Except.ok { pid := 0, modelId := "up-model",
                    offloadConfigured := false, placement := "cuda" } ∧
    ("cuda" : String) ≠ "cpu" := by
  refine ⟨rfl, rfl, by decide⟩

/-- C6 (amended): on a successfully constructing cache miss, the
text-to-image and image-editing pipelines receive CPU-offload staging with
initial CPU residency exactly when the offload setting is enabled, and full
residency on the selected device otherwise; the upscaler pipeline never
receives offload staging and always gets full residency on the selected
device, regardless of the setting. -/
theorem C6_offload_placement (e : Env) (st : LoaderState) (id : String)
    (tok : Option String) (hok : e.constructFails id = none)
    (hmT : st._model = none) (hmI : st._image_editing_model = none)
    (hmU : st._upscaler_model = none) :
    (get_or_load_model e st id tok).1 = Except.ok (freshPipeline e st id) ∧
    (get_or_load_image_editing_model e st id tok).1
      = Except.ok (freshPipeline e st id) ∧
    (get_or_load_upscaler_model e st id tok).1
      = Except.ok (freshUpscalerPipeline e st id) ∧
    (freshPipeline e st id).offloadConfigured
      = is_use_cpu_offload_enabled e.settings ∧
    (freshPipeline e st id).placement
      = (if is_use_cpu_offload_enabled e.settings then "cpu"
         else get_device e) ∧
    (freshUpscalerPipeline e st id).offloadConfigured = false ∧
    (freshUpscalerPipeline e st id).placement = get_device e := by
  have hT : (get_or_load_model e st id tok).1
      = Except.ok (freshPipeline e st id) := by
    rw [get_or_load_model_not_hit e st id tok (Or.inl hmT)]
    cases hre : is_model_retentation_reload e.settings with
    | true =>
      rw [load_model_miss_reload e _ id tok hok hre]
      rfl
    | false =>
      rw [load_model_miss_keep e _ id tok hok hre]
      rfl
  have hI : (get_or_load_image_editing_model e st id tok).1
      = Except.ok (freshPipeline e st id) := by
    rw [get_or_load_ie_not_hit e st id tok (Or.inl hmI)]
    cases hre : is_model_retentation_reload e.settings with
    | true =>
      rw [load_ie_miss_reload e _ id tok hok hre]
      rfl
    | false =>
      rw [load_ie_miss_keep e _ id tok hok hre]
      rfl
  have hU : (get_or_load_upscaler_model e st id tok).1
      = Except.ok (freshUpscalerPipeline e st id) := by
    rw [get_or_load_up_not_hit e st id tok (Or.inl hmU)]
    cases hre : is_model_retentation_reload e.settings with
    | true =>
      rw [load_up_miss_reload e _ id tok hok hre]
      rfl
    | false =>
      rw [load_up_miss_keep e _ id tok hok hre]
      rfl
  exact ⟨hT, hI, hU, rfl, rfl, rfl, rfl⟩

/-- C6 witness: on the CUDA host with offloading enabled, a text-to-image
miss yields a pipeline with offload staging configured and CPU residency. -/
theorem C6_offload_placement_witness :
    (get_or_load_model envOffloadCuda initState "gen-model" none).1
      = Except.ok (freshPipeline envOffloadCuda initState "gen-model") ∧
    (freshPipeline envOffloadCuda initState "gen-model").offloadConfigured
      = true ∧
    (freshPipeline envOffloadCuda initState "gen-model").placement = "cpu" := by
  have h := C6_offload_placement envOffloadCuda initState "gen-model" none
    rfl rfl rfl rfl
  exact ⟨h.1, h.2.2.2.1.trans (by rfl), h.2.2.2.2.1.trans (by rfl)⟩
